import Mathlib

/-!
Verification development for the urban_api schema/projection layer.

The Python source under study consists of pydantic request/response schemas
(`idu_api/urban_api/schemas/services.py`, `urban_api/schemas/indicators.py`),
persistence DTOs, and an error type
(`idu_api/urban_api/exceptions/logic/common.py`).  This file embeds that
layer shallowly:

* a pydantic "before"-validator sees the raw request body as an
  insertion-ordered JSON object; we model it as `Payload`, a list of
  key/value pairs in insertion order;
* field decoding of a pydantic model is modelled as an explicit function
  `Payload → Except String <Schema>`, failing exactly where pydantic would
  raise a ValidationError, and otherwise producing a record whose `Option`
  fields record presence (pydantic tracks unset fields via
  `model_fields_set`; since the patch validators reject explicit nulls, a
  `none` field in an accepted patch record means exactly "absent");
* `from_dto` classmethods become functions from DTO records, returning
  `Except` because constructing a nested pydantic model from null DTO
  columns raises a ValidationError.
-/

set_option autoImplicit false

namespace UrbanApi

/-- JSON-compatible values as a pydantic before-validator sees them
(the request body after JSON parsing, before field decoding). -/
inductive JsonValue where
  | null : JsonValue
  | int : Int → JsonValue
  | str : String → JsonValue
  | bool : Bool → JsonValue
  | obj : List (String × JsonValue) → JsonValue

/-- Mirrors Python's `v is None` test on a decoded JSON value. -/
def JsonValue.isNull : JsonValue → Bool
  | .null => true
  | _ => false

theorem JsonValue.isNull_iff (v : JsonValue) : v.isNull = true ↔ v = JsonValue.null := by
  cases v <;> simp [JsonValue.isNull]

/-- A raw JSON request body: key/value pairs in insertion order
(Python dicts preserve insertion order, and `for k, v in values.items()`
iterates in that order). -/
abbrev Payload := List (String × JsonValue)

/-- Key lookup in a JSON object, returning the first matching entry's value
(a Python dict has unique keys, so first-match lookup is exact). -/
def lookupKey (p : Payload) (k : String) : Option JsonValue :=
  (p.find? (fun kv => kv.1 == k)).map (fun kv => kv.2)

/-! ### Field decoding primitives

Each models pydantic's per-field validation for one field-declaration
pattern of the source schemas.  Lax-mode pydantic v2 accepts exactly an
integer for `int`, a string for `str` and an object for `Dict[str, Any]`
as far as the payloads in this development are concerned; coercions from
other JSON shapes are out of scope and modelled as errors. -/

/-- Decoding of `field: int = Field(...)` — required, not nullable. -/
def decodeReqInt (p : Payload) (k : String) : Except String Int :=
  match lookupKey p k with
  | none => .error (k ++ " field required")
  | some (.int n) => .ok n
  | some _ => .error (k ++ " is not a valid integer")

/-- Decoding of `field: str = Field(...)` — required, not nullable. -/
def decodeReqStr (p : Payload) (k : String) : Except String String :=
  match lookupKey p k with
  | none => .error (k ++ " field required")
  | some (.str s) => .ok s
  | some _ => .error (k ++ " is not a valid string")

/-- Decoding of `field: Optional[int] = Field(None, ...)` — optional,
nullable, defaulting to `None` when absent. -/
def decodeOptInt (p : Payload) (k : String) : Except String (Option Int) :=
  match lookupKey p k with
  | none => .ok none
  | some .null => .ok none
  | some (.int n) => .ok (some n)
  | some _ => .error (k ++ " is not a valid integer")

/-- Decoding of `field: Optional[str] = Field(None, ...)`. -/
def decodeOptStr (p : Payload) (k : String) : Except String (Option String) :=
  match lookupKey p k with
  | none => .ok none
  | some .null => .ok none
  | some (.str s) => .ok (some s)
  | some _ => .error (k ++ " is not a valid string")

/-- Decoding of `field: Optional[int] = Field(..., ...)` — required (no
default) but individually nullable, as in `ServicesDataPut`. -/
def decodeReqNullableInt (p : Payload) (k : String) : Except String (Option Int) :=
  match lookupKey p k with
  | none => .error (k ++ " field required")
  | some .null => .ok none
  | some (.int n) => .ok (some n)
  | some _ => .error (k ++ " is not a valid integer")

/-- Decoding of `field: Optional[str] = Field(..., ...)` — required but
nullable. -/
def decodeReqNullableStr (p : Payload) (k : String) : Except String (Option String) :=
  match lookupKey p k with
  | none => .error (k ++ " field required")
  | some .null => .ok none
  | some (.str s) => .ok (some s)
  | some _ => .error (k ++ " is not a valid string")

/-- Decoding of `properties: Dict[str, Any] = Field(default_factory=dict, ...)`
— optional, defaulting to the empty map when absent, never nullable. -/
def decodeDefaultProps (p : Payload) (k : String) : Except String (List (String × JsonValue)) :=
  match lookupKey p k with
  | none => .ok []
  | some (.obj fs) => .ok fs
  | some _ => .error (k ++ " is not a valid dict")

/-- Decoding of `properties: Dict[str, Any] = Field(..., ...)` — required,
never nullable, as in `ServicesDataPut`. -/
def decodeReqProps (p : Payload) (k : String) : Except String (List (String × JsonValue)) :=
  match lookupKey p k with
  | none => .error (k ++ " field required")
  | some (.obj fs) => .ok fs
  | some _ => .error (k ++ " is not a valid dict")

/-- Decoding of `properties: Optional[Dict[str, Any]] = Field(None, ...)`
— optional and nullable, as in `ServicesDataPatch`. -/
def decodeOptProps (p : Payload) (k : String) : Except String (Option (List (String × JsonValue))) :=
  match lookupKey p k with
  | none => .ok none
  | some .null => .ok none
  | some (.obj fs) => .ok (some fs)
  | some _ => .error (k ++ " is not a valid dict")

/-! ### ServicesDataPatch -/

/-- The accepted shape of a PATCH request for a service
(`ServicesDataPatch` in `schemas/services.py`): every declared field
optional.  A `none` field means the field was absent from the request
body — the patch validators reject any explicit null, so in an accepted
patch the pydantic attribute is `None` exactly when the field is unset. -/
structure ServicesDataPatch where
  service_type_id : Option Int
  territory_type_id : Option Int
  name : Option String
  capacity_real : Option Int
  properties : Option (List (String × JsonValue))

namespace ServicesDataPatch

/-- First before-validator of `ServicesDataPatch`: ensure the request body
is not empty (`if not values: raise ValueError("request body cannot be empty")`). -/
def check_empty_request (values : Payload) : Except String Payload :=
  if values.isEmpty then .error "request body cannot be empty" else .ok values

/-- Second before-validator of `ServicesDataPatch`: ensure the request body
has no nulls (`for k, v in values.items(): if v is None: raise
ValueError(f"... cannot be null")`) — the loop raises at the first null
entry in insertion order. -/
def disallow_nulls (values : Payload) : Except String Payload :=
  match values.find? (fun kv => kv.2.isNull) with
  | some kv => .error (kv.1 ++ " cannot be null")
  | none => .ok values

/-- Full validation pipeline of `ServicesDataPatch`: the two before-model
validators, then per-field decoding.  (pydantic v2 runs the two
before-validators in reverse declaration order, i.e. `disallow_nulls`
before `check_empty_request`; the two orders are observationally
identical because `disallow_nulls` passes every empty body through, so we
chain them in source order.) -/
def validate (values : Payload) : Except String ServicesDataPatch := do
  let v1 ← check_empty_request values
  let v2 ← disallow_nulls v1
  let sti ← decodeOptInt v2 "service_type_id"
  let tti ← decodeOptInt v2 "territory_type_id"
  let nm ← decodeOptStr v2 "name"
  let cr ← decodeOptInt v2 "capacity_real"
  let props ← decodeOptProps v2 "properties"
  pure ⟨sti, tti, nm, cr, props⟩

/-- The field names declared on `ServicesDataPatch`. -/
def declaredFields : List String :=
  ["service_type_id", "territory_type_id", "name", "capacity_real", "properties"]

/-- The declared fields a patch record actually supplies
(pydantic's `model_fields_set` of an accepted instance). -/
def presentFields (r : ServicesDataPatch) : List String :=
  (if r.service_type_id.isSome then ["service_type_id"] else []) ++
  (if r.territory_type_id.isSome then ["territory_type_id"] else []) ++
  (if r.name.isSome then ["name"] else []) ++
  (if r.capacity_real.isSome then ["capacity_real"] else []) ++
  (if r.properties.isSome then ["properties"] else [])

end ServicesDataPatch

/-! ### ServicesDataPost and ServicesDataPut -/

/-- The accepted shape of a POST (create) request for a service
(`ServicesDataPost` in `schemas/services.py`). -/
structure ServicesDataPost where
  physical_object_id : Int
  object_geometry_id : Int
  service_type_id : Int
  territory_type_id : Option Int
  name : Option String
  capacity_real : Option Int
  properties : List (String × JsonValue)

namespace ServicesDataPost

/-- Field decoding of `ServicesDataPost`: three required identifiers, three
optional nullable fields defaulting to `None`, and `properties` defaulting
to the empty dict via `default_factory=dict`. -/
def validate (values : Payload) : Except String ServicesDataPost := do
  let poi ← decodeReqInt values "physical_object_id"
  let ogi ← decodeReqInt values "object_geometry_id"
  let sti ← decodeReqInt values "service_type_id"
  let tti ← decodeOptInt values "territory_type_id"
  let nm ← decodeOptStr values "name"
  let cr ← decodeOptInt values "capacity_real"
  let props ← decodeDefaultProps values "properties"
  pure ⟨poi, ogi, sti, tti, nm, cr, props⟩

/-- The field names declared on `ServicesDataPost`. -/
def declaredFields : List String :=
  ["physical_object_id", "object_geometry_id", "service_type_id",
   "territory_type_id", "name", "capacity_real", "properties"]

end ServicesDataPost

/-- The accepted shape of a PUT (replace) request for a service
(`ServicesDataPut` in `schemas/services.py`): every declared field carries
`Field(...)`, i.e. is explicitly required; `territory_type_id`, `name` and
`capacity_real` are individually nullable (`Optional[...]`). -/
structure ServicesDataPut where
  service_type_id : Int
  territory_type_id : Option Int
  name : Option String
  capacity_real : Option Int
  properties : List (String × JsonValue)

namespace ServicesDataPut

/-- Field decoding of `ServicesDataPut`: every field must be present;
the three `Optional[...]` fields may be explicitly null. -/
def validate (values : Payload) : Except String ServicesDataPut := do
  let sti ← decodeReqInt values "service_type_id"
  let tti ← decodeReqNullableInt values "territory_type_id"
  let nm ← decodeReqNullableStr values "name"
  let cr ← decodeReqNullableInt values "capacity_real"
  let props ← decodeReqProps values "properties"
  pure ⟨sti, tti, nm, cr, props⟩

/-- The field names declared on `ServicesDataPut`. -/
def declaredFields : List String :=
  ["service_type_id", "territory_type_id", "name", "capacity_real", "properties"]

end ServicesDataPut

/-! ### Read-side schemas and DTO projection

`ServiceTypes`, `TerritoryType` and `ShortTerritory` live in
`schemas/service_types.py` and `schemas/territories.py`, which are not
part of the excerpt; the DTO classes live in `dto/services.py`, likewise
absent.  They are modelled from the spec (§3 data model, §6 inbound DTO
field sets) with the field names the excerpted `from_dto` bodies use. -/

/-- Modelled from the spec: the nested `ServiceType` sub-object
("identity + name + numeric attributes", §3), with the field names used by
`ServicesData.from_dto`; `capacity_modeled` mirrors a nullable column. -/
structure ServiceTypes where
  service_type_id : Int
  urban_function_id : Int
  name : String
  capacity_modeled : Option Int
  code : String

/-- Modelled from the spec: the nested `TerritoryType` record — like
`MeasurementUnitRecord` an "id + display name" record (§3) — whose pydantic
schema requires a concrete identifier and name, so constructing it from
null DTO columns raises a ValidationError. -/
structure TerritoryType where
  territory_type_id : Int
  name : String

/-- Modelled from the spec: a "lightweight territory reference (id + name)"
(§3, `ServiceRecordWithTerritories`). -/
structure ShortTerritory where
  territory_id : Int
  name : String

/-- Construction of the nested `TerritoryType` pydantic model from the
(possibly null) flattened DTO columns, as done inside every `from_dto`:
pydantic validates on construction, so a null identifier or name raises. -/
def TerritoryType.construct (id : Option Int) (nm : Option String) :
    Except String TerritoryType :=
  match id, nm with
  | some i, some n => .ok ⟨i, n⟩
  | none, _ => .error "territory_type_id none is not an allowed value"
  | _, none => .error "name none is not an allowed value"

/-- Timestamps are opaque to the projection layer: `created_at` and
`updated_at` pass through unchanged, so any carrier type works; we use an
abstract tick count. -/
abbrev Timestamp := Int

/-- Modelled from the spec: the persistence DTO for a service (§3, §6) —
flattened join columns for the service type and the (nullable) territory
type, the service's own scalar columns, and the open property map. -/
structure ServiceDTO where
  service_id : Int
  service_type_id : Int
  urban_function_id : Int
  service_type_name : String
  service_type_capacity_modeled : Option Int
  service_type_code : String
  territory_type_id : Option Int
  territory_type_name : Option String
  name : Option String
  capacity_real : Option Int
  properties : List (String × JsonValue)
  created_at : Timestamp
  updated_at : Timestamp

/-- Modelled from the spec: one row of `ServiceWithTerritoriesDTO.territories`
— a dict carrying at least the keys `territory_id` and `name` that
`ServiceWithTerritories.from_dto` extracts. -/
structure TerritoryRow where
  territory_id : Int
  name : String

/-- Modelled from the spec: `ServiceWithTerritoriesDTO` — the `ServiceDTO`
columns plus the list of territory rows, in persistence order. -/
structure ServiceWithTerritoriesDTO where
  service_id : Int
  service_type_id : Int
  urban_function_id : Int
  service_type_name : String
  service_type_capacity_modeled : Option Int
  service_type_code : String
  territory_type_id : Option Int
  territory_type_name : Option String
  name : Option String
  capacity_real : Option Int
  properties : List (String × JsonValue)
  territories : List TerritoryRow
  created_at : Timestamp
  updated_at : Timestamp

/-- The read-side service schema (`ServicesData` in `schemas/services.py`):
`territory_type` is declared `Optional[TerritoryType]`. -/
structure ServicesData where
  service_id : Int
  service_type : ServiceTypes
  territory_type : Option TerritoryType
  name : Option String
  capacity_real : Option Int
  properties : List (String × JsonValue)
  created_at : Timestamp
  updated_at : Timestamp

/-- `ServicesData.from_dto`: rebuilds the nested `ServiceTypes` from the
flattened columns and unconditionally constructs
`TerritoryType(territory_type_id=dto.territory_type_id, name=dto.territory_type_name)`
— there is no null guard, so a DTO whose territory-type columns are null
makes the nested construction raise a ValidationError. -/
def ServicesData.from_dto (dto : ServiceDTO) : Except String ServicesData := do
  let tt ← TerritoryType.construct dto.territory_type_id dto.territory_type_name
  pure
    { service_id := dto.service_id
      service_type :=
        { service_type_id := dto.service_type_id
          urban_function_id := dto.urban_function_id
          name := dto.service_type_name
          capacity_modeled := dto.service_type_capacity_modeled
          code := dto.service_type_code }
      territory_type := some tt
      name := dto.name
      capacity_real := dto.capacity_real
      properties := dto.properties
      created_at := dto.created_at
      updated_at := dto.updated_at }

/-- The read-side service schema with parent territories
(`ServiceWithTerritories` in `schemas/services.py`). -/
structure ServiceWithTerritories where
  service_id : Int
  service_type : ServiceTypes
  territory_type : Option TerritoryType
  name : Option String
  capacity_real : Option Int
  properties : List (String × JsonValue)
  territories : List ShortTerritory
  created_at : Timestamp
  updated_at : Timestamp

/-- `ServiceWithTerritories.from_dto`: same flattened-column reassembly as
`ServicesData.from_dto` (including the unguarded `TerritoryType`
construction), plus the list comprehension
`[ShortTerritory(territory_id=t["territory_id"], name=t["name"]) for t in dto.territories]`
which maps the DTO's territory rows elementwise, preserving order. -/
def ServiceWithTerritories.from_dto (dto : ServiceWithTerritoriesDTO) :
    Except String ServiceWithTerritories := do
  let tt ← TerritoryType.construct dto.territory_type_id dto.territory_type_name
  pure
    { service_id := dto.service_id
      service_type :=
        { service_type_id := dto.service_type_id
          urban_function_id := dto.urban_function_id
          name := dto.service_type_name
          capacity_modeled := dto.service_type_capacity_modeled
          code := dto.service_type_code }
      territory_type := some tt
      name := dto.name
      capacity_real := dto.capacity_real
      properties := dto.properties
      territories := dto.territories.map (fun t => ⟨t.territory_id, t.name⟩)
      created_at := dto.created_at
      updated_at := dto.updated_at }

/-! ### Error taxonomy -/

/-- The fastapi/starlette status-code constant used by
`EntityNotFoundById.get_status_code`. -/
def HTTP_404_NOT_FOUND : Int := 404

/-- `EntityNotFoundById` (in `exceptions/logic/common.py`): carries the
requested identifier and the entity (table) name, both set once in
`__init__`. -/
structure EntityNotFoundById where
  requested_id : Int
  entity : String

/-- The `__str__` rendering of `EntityNotFoundById`:
`f"Entity '{self.entity}' with id={self.requested_id} is not found"`. -/
def EntityNotFoundById.message (e : EntityNotFoundById) : String :=
  "Entity '" ++ e.entity ++ "' with id=" ++ toString e.requested_id ++ " is not found"

/-- `EntityNotFoundById.get_status_code`: returns the 404 constant,
depending on nothing but the error value itself. -/
def EntityNotFoundById.get_status_code (_ : EntityNotFoundById) : Int :=
  HTTP_404_NOT_FOUND

/-! ### Indicators -/

/-- Modelled from the spec: the persistence DTO behind the read-side
`Indicators` schema (§3 `IndicatorRecord`), with nullable
`measurement_unit_id` and `parent_id` columns. -/
structure IndicatorsDTO where
  indicator_id : Int
  name_full : String
  name_short : String
  measurement_unit_id : Option Int
  level : Int
  list_label : String
  parent_id : Option Int

/-- The read-side indicator schema (`Indicators` in
`urban_api/schemas/indicators.py`): `measurement_unit_id` and `parent_id`
are declared `Optional[int]`. -/
structure Indicators where
  indicator_id : Int
  name_full : String
  name_short : String
  measurement_unit_id : Option Int
  level : Int
  list_label : String
  parent_id : Option Int

/-- `Indicators.from_dto`: a plain field-for-field copy, preserving the
optionality of `measurement_unit_id` and `parent_id`. -/
def Indicators.from_dto (dto : IndicatorsDTO) : Indicators :=
  { indicator_id := dto.indicator_id
    name_full := dto.name_full
    name_short := dto.name_short
    measurement_unit_id := dto.measurement_unit_id
    level := dto.level
    list_label := dto.list_label
    parent_id := dto.parent_id }

/-- The create request shape for indicators (`IndicatorsPost` in
`urban_api/schemas/indicators.py`): every field required, and —
unlike the read-side `Indicators` — `measurement_unit_id` and `parent_id`
are plain `int`, not `Optional[int]`. -/
structure IndicatorsPost where
  name_full : String
  name_short : String
  measurement_unit_id : Int
  level : Int
  list_label : String
  parent_id : Int

/-- Field decoding of `IndicatorsPost`: every declared field must be
present with a concrete (non-null) value of its declared type. -/
def IndicatorsPost.validate (values : Payload) : Except String IndicatorsPost := do
  let nf ← decodeReqStr values "name_full"
  let ns ← decodeReqStr values "name_short"
  let mu ← decodeReqInt values "measurement_unit_id"
  let lv ← decodeReqInt values "level"
  let ll ← decodeReqStr values "list_label"
  let pid ← decodeReqInt values "parent_id"
  pure ⟨nf, ns, mu, lv, ll, pid⟩

/-! ### Helper lemmas -/

theorem exceptBind_ok {α β : Type} {x : Except String α} {f : α → Except String β} {b : β}
    (h : x >>= f = .ok b) : ∃ a, x = .ok a ∧ f a = .ok b := by
  cases x with
  | error e => simp [Bind.bind, Except.bind] at h
  | ok a => exact ⟨a, rfl, by simpa [Bind.bind, Except.bind] using h⟩

theorem check_empty_request_ok {p v : Payload}
    (h : ServicesDataPatch.check_empty_request p = .ok v) : v = p ∧ p ≠ [] := by
  unfold ServicesDataPatch.check_empty_request at h
  by_cases he : p.isEmpty
  · simp [he] at h
  · refine ⟨by simp [he] at h; exact h.symm, ?_⟩
    intro hnil
    subst hnil
    simp at he

theorem disallow_nulls_ok {p v : Payload}
    (h : ServicesDataPatch.disallow_nulls p = .ok v) :
    v = p ∧ ∀ e ∈ p, e.2 ≠ JsonValue.null := by
  unfold ServicesDataPatch.disallow_nulls at h
  cases hf : p.find? (fun kv => kv.2.isNull) with
  | some kv => simp [hf] at h
  | none =>
    simp [hf] at h
    refine ⟨h.symm, ?_⟩
    intro e he hcontra
    have := List.find?_eq_none.mp hf e he
    rw [hcontra] at this
    simp [JsonValue.isNull] at this

theorem patch_validate_ok {p : Payload} {r : ServicesDataPatch}
    (h : ServicesDataPatch.validate p = .ok r) :
    p ≠ [] ∧ (∀ e ∈ p, e.2 ≠ JsonValue.null) ∧
    decodeOptInt p "service_type_id" = .ok r.service_type_id ∧
    decodeOptInt p "territory_type_id" = .ok r.territory_type_id ∧
    decodeOptStr p "name" = .ok r.name ∧
    decodeOptInt p "capacity_real" = .ok r.capacity_real ∧
    decodeOptProps p "properties" = .ok r.properties := by
  unfold ServicesDataPatch.validate at h
  obtain ⟨v1, hv1, h⟩ := exceptBind_ok h
  obtain ⟨heq1, hne⟩ := check_empty_request_ok hv1
  rw [heq1] at h
  obtain ⟨v2, hv2, h⟩ := exceptBind_ok h
  obtain ⟨heq2, hnull⟩ := disallow_nulls_ok hv2
  rw [heq2] at h
  obtain ⟨sti, hsti, h⟩ := exceptBind_ok h
  obtain ⟨tti, htti, h⟩ := exceptBind_ok h
  obtain ⟨nm, hnm, h⟩ := exceptBind_ok h
  obtain ⟨cr, hcr, h⟩ := exceptBind_ok h
  obtain ⟨props, hprops, h⟩ := exceptBind_ok h
  simp [Pure.pure, Except.pure] at h
  subst h
  exact ⟨hne, hnull, hsti, htti, hnm, hcr, hprops⟩

theorem ServicesDataPatch.validate_null_error {p : Payload} {kv : String × JsonValue}
    (hne : p ≠ []) (hfind : p.find? (fun e => e.2.isNull) = some kv) :
    ServicesDataPatch.validate p = .error (kv.1 ++ " cannot be null") := by
  have hemp : p.isEmpty = false := by
    cases p with
    | nil => exact absurd rfl hne
    | cons a t => rfl
  unfold ServicesDataPatch.validate ServicesDataPatch.check_empty_request
    ServicesDataPatch.disallow_nulls
  simp [hemp, hfind, Bind.bind, Except.bind]

/-! ### Claim theorems -/

/-- A `ServiceDTO` whose territory-type columns are null: every other
documented field carries an ordinary value. -/
def serviceDtoNullTerritory : ServiceDTO :=
  { service_id := 1
    service_type_id := 1
    urban_function_id := 1
    service_type_name := "school"
    service_type_capacity_modeled := some 1
    service_type_code := "1"
    territory_type_id := none
    territory_type_name := none
    name := some "svc"
    capacity_real := some 1
    properties := []
    created_at := 0
    updated_at := 0 }

/-- C1: the claim states that `ServicesData.from_dto` succeeds on every
DTO satisfying the documented field set, including one whose
territory-type columns are null (the nested `TerritoryType` is declared
`Optional`).  The code instead constructs `TerritoryType` unconditionally,
so on such a DTO the nested validation raises: the projection fails. -/
theorem from_dto_null_territory_type_raises :
    ∃ msg, ServicesData.from_dto serviceDtoNullTerritory = .error msg :=
  ⟨"territory_type_id none is not an allowed value", rfl⟩

/-- C2: validating `ServicesDataPatch` against an empty request body fails
with exactly the message "request body cannot be empty". -/
theorem patch_empty_body_rejected :
    ServicesDataPatch.validate [] = .error "request body cannot be empty" := rfl

/-- C3 counterexample: in a patch body carrying two null fields, the key
`capacity_real` is present with a null value, yet validation does not fail
with a message naming `capacity_real` — the loop raises at the first null
key, `name`. -/
theorem patch_null_names_first_key_cx :
    ServicesDataPatch.validate [("name", JsonValue.null), ("capacity_real", JsonValue.null)]
        = .error "name cannot be null" ∧
    ServicesDataPatch.validate [("name", JsonValue.null), ("capacity_real", JsonValue.null)]
        ≠ .error "capacity_real cannot be null" := by
  refine ⟨rfl, ?_⟩
  intro h
  rw [show ServicesDataPatch.validate
        [("name", JsonValue.null), ("capacity_real", JsonValue.null)]
        = .error "name cannot be null" from rfl] at h
  simp at h

/-- C3 (amended): a patch body containing any null-valued key fails with a
ValidationError of shape "(field) cannot be null" naming a null-valued key
of the body — the first one in insertion order — and therefore naming the
given key whenever it is the only null-valued key. -/
theorem patch_null_rule (p : Payload) (k : String)
    (hk : (k, JsonValue.null) ∈ p) :
    (∃ f, ServicesDataPatch.validate p = .error (f ++ " cannot be null") ∧
      (f, JsonValue.null) ∈ p) ∧
    ((∀ e ∈ p, e.2 = JsonValue.null → e.1 = k) →
      ServicesDataPatch.validate p = .error (k ++ " cannot be null")) := by
  have hne : p ≠ [] := by
    intro hnil
    subst hnil
    simp at hk
  have hsome : (p.find? (fun e => e.2.isNull)).isSome := by
    rw [List.find?_isSome]
    exact ⟨(k, JsonValue.null), hk, rfl⟩
  obtain ⟨kv, hfind⟩ := Option.isSome_iff_exists.mp hsome
  have hpred := List.find?_some hfind
  simp only [] at hpred
  have hkvnull : kv.2 = JsonValue.null := (JsonValue.isNull_iff kv.2).mp hpred
  have hkvmem : kv ∈ p := List.mem_of_find?_eq_some hfind
  have hkvmem' : (kv.1, JsonValue.null) ∈ p := by
    have : kv = (kv.1, JsonValue.null) := by
      cases kv
      simp_all
    rw [← this]
    exact hkvmem
  refine ⟨⟨kv.1, ServicesDataPatch.validate_null_error hne hfind, hkvmem'⟩, ?_⟩
  intro huniq
  have hk1 : kv.1 = k := huniq kv hkvmem hkvnull
  rw [← hk1]
  exact ServicesDataPatch.validate_null_error hne hfind

/-- C3 witness: a body whose only key is `territory_type_id` with a null
value fails with the message naming exactly that key. -/
theorem patch_null_rule_witness :
    ServicesDataPatch.validate [("territory_type_id", JsonValue.null)]
      = .error ("territory_type_id" ++ " cannot be null") :=
  (patch_null_rule [("territory_type_id", JsonValue.null)] "territory_type_id"
      (by simp)).2 (by intro e he _; simp at he; subst he; rfl)

/-- A key/value pair that is a well-typed assignment to one declared field
of `ServicesDataPatch` (the value has the declared pydantic type of that
field). -/
def patchWellTyped (k : String) (v : JsonValue) : Prop :=
  (k = "service_type_id" ∧ ∃ n, v = JsonValue.int n) ∨
  (k = "territory_type_id" ∧ ∃ n, v = JsonValue.int n) ∨
  (k = "name" ∧ ∃ s, v = JsonValue.str s) ∨
  (k = "capacity_real" ∧ ∃ n, v = JsonValue.int n) ∨
  (k = "properties" ∧ ∃ fs, v = JsonValue.obj fs)

/-- C4: a patch body supplying exactly one declared field with a value of
its declared type (necessarily non-null) is accepted, and the accepted
record supplies exactly that field — every other field is absent. -/
theorem patch_single_field_accepted (k : String) (v : JsonValue)
    (h : patchWellTyped k v) :
    ∃ r, ServicesDataPatch.validate [(k, v)] = .ok r ∧ r.presentFields = [k] := by
  rcases h with ⟨hk, n, hv⟩ | ⟨hk, n, hv⟩ | ⟨hk, s, hv⟩ | ⟨hk, n, hv⟩ | ⟨hk, fs, hv⟩ <;>
    subst hk <;> subst hv
  · exact ⟨⟨some n, none, none, none, none⟩, rfl, rfl⟩
  · exact ⟨⟨none, some n, none, none, none⟩, rfl, rfl⟩
  · exact ⟨⟨none, none, some s, none, none⟩, rfl, rfl⟩
  · exact ⟨⟨none, none, none, some n, none⟩, rfl, rfl⟩
  · exact ⟨⟨none, none, none, none, some fs⟩, rfl, rfl⟩

/-- C4 witness: a body supplying only `name` is accepted with `name` as
the only supplied field. -/
theorem patch_single_field_accepted_witness :
    ∃ r, ServicesDataPatch.validate [("name", JsonValue.str "x")] = .ok r ∧
      r.presentFields = ["name"] :=
  patch_single_field_accepted "name" (JsonValue.str "x")
    (Or.inr (Or.inr (Or.inl ⟨rfl, "x", rfl⟩)))

/-- C5 counterexample: a patch body whose only key is not a declared field
passes both before-validators (it is non-empty and null-free) and is
accepted — pydantic ignores unknown keys — yet the accepted record
supplies no declared field at all. -/
theorem patch_unknown_key_accepted_cx :
    ServicesDataPatch.validate [("unknown_field", JsonValue.int 1)]
        = .ok ⟨none, none, none, none, none⟩ ∧
    ServicesDataPatch.presentFields ⟨none, none, none, none, none⟩ = [] :=
  ⟨rfl, rfl⟩

/-- C5 (amended): every accepted patch body contains at least one key with
a non-null value, and if every key of the body is a declared field then
the accepted record supplies at least one declared field with a concrete
value. -/
theorem patch_accept_supplies_nonnull (p : Payload) (r : ServicesDataPatch)
    (h : ServicesDataPatch.validate p = .ok r) :
    (∃ e ∈ p, e.2 ≠ JsonValue.null) ∧
    ((∀ e ∈ p, e.1 ∈ ServicesDataPatch.declaredFields) → r.presentFields ≠ []) := by
  obtain ⟨hne, hnull, h1, h2, h3, h4, h5⟩ := patch_validate_ok h
  cases p with
  | nil => exact absurd rfl hne
  | cons e t =>
    have hmem : e ∈ e :: t := List.mem_cons_self e t
    refine ⟨⟨e, hmem, hnull e hmem⟩, ?_⟩
    intro hdecl
    have hlook : lookupKey (e :: t) e.1 = some e.2 := by
      simp [lookupKey, List.find?]
    have henull : e.2 ≠ JsonValue.null := hnull e hmem
    have hkmem := hdecl e hmem
    simp [ServicesDataPatch.declaredFields] at hkmem
    rcases hkmem with hk | hk | hk | hk | hk <;> rw [hk] at hlook
    · rw [decodeOptInt, hlook] at h1
      cases hv : e.2 <;> rw [hv] at h1 <;>
        simp_all [ServicesDataPatch.presentFields, List.append_eq_nil]
      intros
      simp_all
    · rw [decodeOptInt, hlook] at h2
      cases hv : e.2 <;> rw [hv] at h2 <;>
        simp_all [ServicesDataPatch.presentFields, List.append_eq_nil]
      intros
      simp_all
    · rw [decodeOptStr, hlook] at h3
      cases hv : e.2 <;> rw [hv] at h3 <;>
        simp_all [ServicesDataPatch.presentFields, List.append_eq_nil]
      intros
      simp_all
    · rw [decodeOptInt, hlook] at h4
      cases hv : e.2 <;> rw [hv] at h4 <;>
        simp_all [ServicesDataPatch.presentFields, List.append_eq_nil]
      intros
      simp_all
    · rw [decodeOptProps, hlook] at h5
      cases hv : e.2 <;> rw [hv] at h5 <;>
        simp_all [ServicesDataPatch.presentFields, List.append_eq_nil]
      intros
      rw [← h5]
      simp

/-- C5 witness: the accepted single-field body `name = "x"` contains a
non-null entry, and — all its keys being declared — supplies a declared
field. -/
theorem patch_accept_supplies_nonnull_witness :
    (∃ e ∈ [(("name" : String), JsonValue.str "x")], e.2 ≠ JsonValue.null) ∧
    (ServicesDataPatch.mk none none (some "x") none none).presentFields ≠ [] := by
  have h := patch_accept_supplies_nonnull [("name", JsonValue.str "x")]
    ⟨none, none, some "x", none, none⟩ rfl
  exact ⟨h.1, h.2 (by intro e he; simp at he; subst he; simp [ServicesDataPatch.declaredFields])⟩

/-- C6: for every identifier and entity-kind string, `EntityNotFoundById`
renders the message `Entity '<kind>' with id=<id> is not found` and its
`get_status_code` returns the 404 not-found constant; both depend on the
error value alone.  The second conjunct checks the rendering at the
documented example `EntityNotFound(42, "territory")`. -/
theorem entity_not_found_rendering :
    (∀ (id : Int) (kind : String),
      (EntityNotFoundById.mk id kind).message
          = "Entity '" ++ kind ++ "' with id=" ++ toString id ++ " is not found" ∧
      (EntityNotFoundById.mk id kind).get_status_code = HTTP_404_NOT_FOUND) ∧
    (EntityNotFoundById.mk 42 "territory").message
        = "Entity 'territory' with id=42 is not found" ∧
    HTTP_404_NOT_FOUND = 404 :=
  ⟨fun _ _ => ⟨rfl, rfl⟩, by decide, rfl⟩

/-- A `ServiceWithTerritoriesDTO` whose territory-type columns are null. -/
def serviceWtDtoNullTerritory : ServiceWithTerritoriesDTO :=
  { service_id := 1
    service_type_id := 1
    urban_function_id := 1
    service_type_name := "school"
    service_type_capacity_modeled := some 1
    service_type_code := "1"
    territory_type_id := none
    territory_type_name := none
    name := some "svc"
    capacity_real := some 1
    properties := []
    territories := [⟨1, "Spb"⟩]
    created_at := 0
    updated_at := 0 }

/-- C7 counterexample: a well-formed DTO may carry null territory-type
columns (the schema declares `Optional[TerritoryType]`), and on such a DTO
the projection does not produce a schema instance at all — the unguarded
nested `TerritoryType` construction fails. -/
theorem projection_null_territory_type_cx :
    ∃ msg, ServiceWithTerritories.from_dto serviceWtDtoNullTerritory = .error msg :=
  ⟨"territory_type_id none is not an allowed value", rfl⟩

/-- C7 (amended): for every DTO whose territory-type columns are non-null,
`ServiceWithTerritories.from_dto` succeeds and carries every non-derived
source field over unchanged — scalars, timestamps and the properties map
pass through as-is, and the territories list is mapped elementwise to
`(territory_id, name)` pairs in the DTO's order. -/
theorem service_with_territories_projection (dto : ServiceWithTerritoriesDTO)
    (i : Int) (s : String)
    (h1 : dto.territory_type_id = some i) (h2 : dto.territory_type_name = some s) :
    ServiceWithTerritories.from_dto dto = .ok
      { service_id := dto.service_id
        service_type :=
          { service_type_id := dto.service_type_id
            urban_function_id := dto.urban_function_id
            name := dto.service_type_name
            capacity_modeled := dto.service_type_capacity_modeled
            code := dto.service_type_code }
        territory_type := some ⟨i, s⟩
        name := dto.name
        capacity_real := dto.capacity_real
        properties := dto.properties
        territories := dto.territories.map (fun t => ⟨t.territory_id, t.name⟩)
        created_at := dto.created_at
        updated_at := dto.updated_at } := by
  unfold ServiceWithTerritories.from_dto TerritoryType.construct
  rw [h1, h2]
  rfl

/-- A concrete `ServiceWithTerritoriesDTO` with non-null territory-type
columns, used to instantiate the projection theorem. -/
def serviceWtDtoFull : ServiceWithTerritoriesDTO :=
  { service_id := 5
    service_type_id := 2
    urban_function_id := 3
    service_type_name := "school"
    service_type_capacity_modeled := none
    service_type_code := "2"
    territory_type_id := some 7
    territory_type_name := some "city"
    name := none
    capacity_real := some 10
    properties := [("a", JsonValue.int 1)]
    territories := [⟨1, "Spb"⟩, ⟨2, "Msk"⟩]
    created_at := 3
    updated_at := 4 }

/-- C7 witness: the projection of a concrete DTO with two territories,
spelled out field by field. -/
theorem service_with_territories_projection_witness :
    ServiceWithTerritories.from_dto serviceWtDtoFull = .ok
      { service_id := 5
        service_type :=
          { service_type_id := 2
            urban_function_id := 3
            name := "school"
            capacity_modeled := none
            code := "2" }
        territory_type := some ⟨7, "city"⟩
        name := none
        capacity_real := some 10
        properties := [("a", JsonValue.int 1)]
        territories := [⟨1, "Spb"⟩, ⟨2, "Msk"⟩]
        created_at := 3
        updated_at := 4 } :=
  service_with_territories_projection serviceWtDtoFull 7 "city" rfl rfl

/-! ### Inversion lemmas for the write-request decoders -/

theorem decodeReqInt_ok {p : Payload} {k : String} {n : Int}
    (h : decodeReqInt p k = .ok n) : lookupKey p k = some (JsonValue.int n) := by
  unfold decodeReqInt at h
  cases hl : lookupKey p k with
  | none => rw [hl] at h; simp at h
  | some v => rw [hl] at h; cases v <;> simp_all

theorem decodeReqStr_ok {p : Payload} {k : String} {s : String}
    (h : decodeReqStr p k = .ok s) : lookupKey p k = some (JsonValue.str s) := by
  unfold decodeReqStr at h
  cases hl : lookupKey p k with
  | none => rw [hl] at h; simp at h
  | some v => rw [hl] at h; cases v <;> simp_all

theorem decodeReqNullableInt_ok {p : Payload} {k : String} {o : Option Int}
    (h : decodeReqNullableInt p k = .ok o) : lookupKey p k ≠ none := by
  intro hl
  unfold decodeReqNullableInt at h
  rw [hl] at h
  simp at h

theorem decodeReqNullableStr_ok {p : Payload} {k : String} {o : Option String}
    (h : decodeReqNullableStr p k = .ok o) : lookupKey p k ≠ none := by
  intro hl
  unfold decodeReqNullableStr at h
  rw [hl] at h
  simp at h

theorem decodeReqProps_ok {p : Payload} {k : String} {fs : List (String × JsonValue)}
    (h : decodeReqProps p k = .ok fs) : lookupKey p k ≠ none := by
  intro hl
  unfold decodeReqProps at h
  rw [hl] at h
  simp at h

theorem post_validate_ok {p : Payload} {r : ServicesDataPost}
    (h : ServicesDataPost.validate p = .ok r) :
    decodeReqInt p "physical_object_id" = .ok r.physical_object_id ∧
    decodeReqInt p "object_geometry_id" = .ok r.object_geometry_id ∧
    decodeReqInt p "service_type_id" = .ok r.service_type_id ∧
    decodeOptInt p "territory_type_id" = .ok r.territory_type_id ∧
    decodeOptStr p "name" = .ok r.name ∧
    decodeOptInt p "capacity_real" = .ok r.capacity_real ∧
    decodeDefaultProps p "properties" = .ok r.properties := by
  unfold ServicesDataPost.validate at h
  obtain ⟨poi, hpoi, h⟩ := exceptBind_ok h
  obtain ⟨ogi, hogi, h⟩ := exceptBind_ok h
  obtain ⟨sti, hsti, h⟩ := exceptBind_ok h
  obtain ⟨tti, htti, h⟩ := exceptBind_ok h
  obtain ⟨nm, hnm, h⟩ := exceptBind_ok h
  obtain ⟨cr, hcr, h⟩ := exceptBind_ok h
  obtain ⟨props, hprops, h⟩ := exceptBind_ok h
  simp [Pure.pure, Except.pure] at h
  subst h
  exact ⟨hpoi, hogi, hsti, htti, hnm, hcr, hprops⟩

theorem put_validate_ok {p : Payload} {r : ServicesDataPut}
    (h : ServicesDataPut.validate p = .ok r) :
    decodeReqInt p "service_type_id" = .ok r.service_type_id ∧
    decodeReqNullableInt p "territory_type_id" = .ok r.territory_type_id ∧
    decodeReqNullableStr p "name" = .ok r.name ∧
    decodeReqNullableInt p "capacity_real" = .ok r.capacity_real ∧
    decodeReqProps p "properties" = .ok r.properties := by
  unfold ServicesDataPut.validate at h
  obtain ⟨sti, hsti, h⟩ := exceptBind_ok h
  obtain ⟨tti, htti, h⟩ := exceptBind_ok h
  obtain ⟨nm, hnm, h⟩ := exceptBind_ok h
  obtain ⟨cr, hcr, h⟩ := exceptBind_ok h
  obtain ⟨props, hprops, h⟩ := exceptBind_ok h
  simp [Pure.pure, Except.pure] at h
  subst h
  exact ⟨hsti, htti, hnm, hcr, hprops⟩

theorem indicators_validate_ok {p : Payload} {r : IndicatorsPost}
    (h : IndicatorsPost.validate p = .ok r) :
    decodeReqStr p "name_full" = .ok r.name_full ∧
    decodeReqStr p "name_short" = .ok r.name_short ∧
    decodeReqInt p "measurement_unit_id" = .ok r.measurement_unit_id ∧
    decodeReqInt p "level" = .ok r.level ∧
    decodeReqStr p "list_label" = .ok r.list_label ∧
    decodeReqInt p "parent_id" = .ok r.parent_id := by
  unfold IndicatorsPost.validate at h
  obtain ⟨nf, hnf, h⟩ := exceptBind_ok h
  obtain ⟨ns, hns, h⟩ := exceptBind_ok h
  obtain ⟨mu, hmu, h⟩ := exceptBind_ok h
  obtain ⟨lv, hlv, h⟩ := exceptBind_ok h
  obtain ⟨ll, hll, h⟩ := exceptBind_ok h
  obtain ⟨pid, hpid, h⟩ := exceptBind_ok h
  simp [Pure.pure, Except.pure] at h
  subst h
  exact ⟨hnf, hns, hmu, hlv, hll, hpid⟩

/-- C8: a create body accepted by `ServicesDataPost` in which the
`properties` key is absent yields a record whose properties map is the
empty map (the field itself is non-optional, so no accepted record has a
missing or null properties value). -/
theorem post_properties_default (p : Payload) (r : ServicesDataPost)
    (h : ServicesDataPost.validate p = .ok r)
    (habs : lookupKey p "properties" = none) : r.properties = [] := by
  obtain ⟨-, -, -, -, -, -, hprops⟩ := post_validate_ok h
  rw [decodeDefaultProps, habs] at hprops
  simpa using hprops.symm

/-- C8 witness: a minimal create body with only the three required
identifiers decodes with an empty properties map. -/
theorem post_properties_default_witness :
    (ServicesDataPost.mk 1 2 3 none none none []).properties = [] :=
  post_properties_default
    [("physical_object_id", JsonValue.int 1), ("object_geometry_id", JsonValue.int 2),
     ("service_type_id", JsonValue.int 3)]
    (ServicesDataPost.mk 1 2 3 none none none []) rfl rfl

/-- A complete PUT body for `ServicesDataPut`: all five declared fields
present, the nullable ones explicitly null. -/
def putFullPayload : Payload :=
  [("service_type_id", JsonValue.int 1), ("territory_type_id", JsonValue.null),
   ("name", JsonValue.null), ("capacity_real", JsonValue.null),
   ("properties", JsonValue.obj [])]

/-- C9 counterexample: `putFullPayload` is accepted by `ServicesDataPut`,
yet `physical_object_id` — a declared field of the create shape
`ServicesDataPost` — is absent from it, so the replace shape does not
declare the same fields as the create shape and acceptance does not
require all create-shape fields. -/
theorem put_accepts_without_create_fields_cx :
    ServicesDataPut.validate putFullPayload = .ok ⟨1, none, none, none, []⟩ ∧
    "physical_object_id" ∈ ServicesDataPost.declaredFields ∧
    lookupKey putFullPayload "physical_object_id" = none := by
  refine ⟨rfl, ?_, rfl⟩
  simp [ServicesDataPost.declaredFields]

/-- C9 (amended): `ServicesDataPut` declares exactly the create shape's
fields minus the two foreign keys `physical_object_id` and
`object_geometry_id`, with every declared field explicitly required: a
body is accepted only if every one of the replace shape's declared fields
is present (possibly explicitly null where the field is nullable). -/
theorem put_field_set (p : Payload) (r : ServicesDataPut)
    (h : ServicesDataPut.validate p = .ok r) :
    ServicesDataPut.declaredFields
        = ServicesDataPost.declaredFields.filter
            (fun f => f != "physical_object_id" && f != "object_geometry_id") ∧
    ∀ f ∈ ServicesDataPut.declaredFields, lookupKey p f ≠ none := by
  obtain ⟨hsti, htti, hnm, hcr, hprops⟩ := put_validate_ok h
  refine ⟨by decide, ?_⟩
  intro f hf
  simp [ServicesDataPut.declaredFields] at hf
  rcases hf with hf | hf | hf | hf | hf <;> subst hf
  · intro hl
    rw [decodeReqInt, hl] at hsti
    simp at hsti
  · exact decodeReqNullableInt_ok htti
  · exact decodeReqNullableStr_ok hnm
  · exact decodeReqNullableInt_ok hcr
  · exact decodeReqProps_ok hprops

/-- C9 witness: the amended statement instantiated at the accepted full
PUT body. -/
theorem put_field_set_witness :
    ServicesDataPut.declaredFields
        = ServicesDataPost.declaredFields.filter
            (fun f => f != "physical_object_id" && f != "object_geometry_id") ∧
    lookupKey putFullPayload "name" ≠ none := by
  have h := put_field_set putFullPayload ⟨1, none, none, none, []⟩ rfl
  exact ⟨h.1, h.2 "name" (by simp [ServicesDataPut.declaredFields])⟩

/-- C10: every body accepted by `IndicatorsPost` carries `parent_id` and
`measurement_unit_id` as present, non-null integers — so a root indicator
(no parent) or an indicator without a measurement unit cannot be expressed
through the create shape — while the read-side `Indicators.from_dto`
passes both fields through as optional values, `none` included. -/
theorem indicators_post_requires_parent (p : Payload) (r : IndicatorsPost)
    (h : IndicatorsPost.validate p = .ok r) :
    (lookupKey p "parent_id" = some (JsonValue.int r.parent_id)) ∧
    (lookupKey p "measurement_unit_id" = some (JsonValue.int r.measurement_unit_id)) ∧
    (∀ dto : IndicatorsDTO,
      (Indicators.from_dto dto).parent_id = dto.parent_id ∧
      (Indicators.from_dto dto).measurement_unit_id = dto.measurement_unit_id) := by
  obtain ⟨-, -, hmu, -, -, hpid⟩ := indicators_validate_ok h
  exact ⟨decodeReqInt_ok hpid, decodeReqInt_ok hmu, fun _ => ⟨rfl, rfl⟩⟩

/-- A complete, accepted create body for `IndicatorsPost`. -/
def indicatorsPostPayload : Payload :=
  [("name_full", JsonValue.str "population"), ("name_short", JsonValue.str "pop"),
   ("measurement_unit_id", JsonValue.int 1), ("level", JsonValue.int 1),
   ("list_label", JsonValue.str "1.1.1"), ("parent_id", JsonValue.int 2)]

/-- C10 witness: the accepted concrete body carries concrete
`parent_id` and `measurement_unit_id` values. -/
theorem indicators_post_requires_parent_witness :
    lookupKey indicatorsPostPayload "parent_id" = some (JsonValue.int 2) ∧
    lookupKey indicatorsPostPayload "measurement_unit_id" = some (JsonValue.int 1) := by
  have h := indicators_post_requires_parent indicatorsPostPayload
    ⟨"population", "pop", 1, 1, "1.1.1", 2⟩ rfl
  exact ⟨h.1, h.2.1⟩

end UrbanApi
